import Mathlib

/-!
Shallow embedding of the fundability-engine scoring core
(`src/lib/scoring-engine.ts`), its input validator (`validateInput` as
listed in `src/QUICK_START.md`) and the batch runner
(`processBatch`, `src/unnamed/part_002`).

JavaScript numbers are modelled as exact rationals (ℚ); `Math.round` is
`⌊x + 1/2⌋` (JS rounds half toward +∞); the wall clock
(`new Date().toISOString()`) is threaded as an explicit `now : String`
parameter.  String interpolation of a numeric input value uses `toString`
on ℚ (digit formatting is abstracted; no theorem depends on interpolated
digits).
-/

namespace Fundability

/-- The 7-value goal enumeration (`PrimaryGoal` in `lib/validation.ts`). -/
inductive PrimaryGoal where
  | startup_funding
  | business_funding
  | debt_consolidation
  | improve_credit
  | lower_utilization
  | raise_score_fast
  | not_sure
deriving DecidableEq, Repr

/-- The validated input record (`FundabilityInput` in `lib/validation.ts`).
`Option ℚ` models `number | null`. -/
structure FundabilityInput where
  first_name : String
  last_name : String
  email : String
  credit_score : Option ℚ
  revolving_utilization_pct : ℚ
  dti_pct : Option ℚ
  inquiries_6m : ℚ
  oldest_account_years : ℚ
  open_tradelines : ℚ
  recent_derogs_24m : ℚ
  bk_or_major_event : Bool
  requested_amount : ℚ
  primary_goal : PrimaryGoal
  estimated_home_value : Option ℚ
  mortgage_balance : Option ℚ
  source : Option String
  external_contact_id : Option String
deriving DecidableEq, Repr

structure SnapshotSubscores where
  credit_score_subscore : ℤ
  utilization_subscore : ℤ
  dti_subscore : ℤ
  inquiry_subscore : ℤ
  depth_mix_subscore : ℤ
  penalty_points : ℤ
deriving DecidableEq, Repr

structure SnapshotFlags where
  missing_credit_score : Bool
  missing_utilization : Bool
  missing_dti : Bool
  high_risk_profile : Bool
deriving DecidableEq, Repr

structure SnapshotMeta where
  version : String
  generated_at : String
deriving DecidableEq, Repr

/-- The output record (`FundabilitySnapshot` in `lib/scoring-engine.ts`). -/
structure FundabilitySnapshot where
  fundability_score : ℤ
  fundability_tier_numeric : ℤ
  fundability_tier_label : String
  subscores : SnapshotSubscores
  key_strengths : List String
  key_risks : List String
  high_impact_actions : List String
  funding_range_now : String
  funding_range_after_optimization : String
  goal_path : String
  flags : SnapshotFlags
  meta : SnapshotMeta
deriving DecidableEq, Repr

/-- JS `Math.round`: rounds half toward +∞.  `Rat.floor` is used so the
definition evaluates by kernel reduction; `jsRound_eq` relates it to `⌊·⌋`. -/
def jsRound (q : ℚ) : ℤ := Rat.floor (q + 1/2)

theorem jsRound_eq (q : ℚ) : jsRound q = ⌊q + 1/2⌋ := by
  rw [jsRound, Rat.floor_def, Rat.floor_def']

/-- `calculateCreditScoreSubscore` (scoring-engine.ts:132). -/
def calculateCreditScoreSubscore (score : Option ℚ) : ℤ :=
  match score with
  | none => 40
  | some s =>
    if s ≥ 750 then 95
    else if s ≥ 720 then 90
    else if s ≥ 680 then 80
    else if s ≥ 640 then 65
    else if s ≥ 600 then 45
    else if s ≥ 550 then 30
    else 15

/-- `calculateUtilizationSubscore` (scoring-engine.ts:143). -/
def calculateUtilizationSubscore (utilization : ℚ) : ℤ :=
  if utilization < 10 then 95
  else if utilization < 30 then 90
  else if utilization < 50 then 75
  else if utilization < 75 then 50
  else if utilization < 90 then 30
  else 15

/-- `calculateDTISubscore` (scoring-engine.ts:152). -/
def calculateDTISubscore (dti : Option ℚ) : ℤ :=
  match dti with
  | none => 55
  | some d =>
    if d < 25 then 95
    else if d < 35 then 85
    else if d < 45 then 70
    else if d < 55 then 45
    else 25

/-- `calculateInquirySubscore` (scoring-engine.ts:161). -/
def calculateInquirySubscore (inquiries : ℚ) : ℤ :=
  if inquiries ≤ 1 then 95
  else if inquiries ≤ 3 then 80
  else if inquiries ≤ 5 then 60
  else if inquiries ≤ 8 then 35
  else 20

/-- `calculateDepthMixSubscore` (scoring-engine.ts:169). -/
def calculateDepthMixSubscore (oldestYears tradelines : ℚ) : ℤ :=
  if oldestYears ≥ 10 ∧ tradelines ≥ 6 then 95
  else if oldestYears ≥ 7 ∧ tradelines ≥ 4 then 85
  else if oldestYears ≥ 3 ∧ tradelines ≥ 3 then 70
  else 45

/-- `calculatePenaltyPoints` (scoring-engine.ts:176). -/
def calculatePenaltyPoints (bkOrMajorEvent : Bool) (recentDerogs : ℚ) : ℤ :=
  let penalty : ℤ := 0
  let penalty := if bkOrMajorEvent then penalty - 25 else penalty
  let penalty :=
    if recentDerogs ≥ 3 then penalty - 20
    else if recentDerogs ≥ 1 then penalty - 10
    else penalty
  max penalty (-35)

structure Subscores where
  creditScoreSubscore : ℤ
  utilizationSubscore : ℤ
  dtiSubscore : ℤ
  inquirySubscore : ℤ
  depthMixSubscore : ℤ
  penaltyPoints : ℤ
deriving DecidableEq, Repr

/-- `calculateWeightedScore` (scoring-engine.ts:203).  The `weights` object
also declares `penalty: 0.05` in the source, but that entry is never used:
the penalty is added raw. -/
def calculateWeightedScore (subscores : Subscores) : ℤ :=
  let weightedSum : ℚ :=
    (subscores.creditScoreSubscore : ℚ) * (30/100)
    + (subscores.utilizationSubscore : ℚ) * (25/100)
    + (subscores.dtiSubscore : ℚ) * (20/100)
    + (subscores.inquirySubscore : ℚ) * (10/100)
    + (subscores.depthMixSubscore : ℚ) * (10/100)
  let rawScore : ℚ := weightedSum + (subscores.penaltyPoints : ℚ)
  max 0 (min 100 (jsRound rawScore))

/-- `determineTier` (scoring-engine.ts:228). -/
def determineTier (score : ℤ) : ℤ × String :=
  if score ≥ 85 then (1, "Tier 1 – Ready Now (Prime)")
  else if score ≥ 70 then (2, "Tier 2 – Tune-Up Then Ready")
  else if score ≥ 55 then (3, "Tier 3 – Optimization Required")
  else (4, "Tier 4 – Rehab / Long-Term Plan")

/-- `generateStrengths` (scoring-engine.ts:236). -/
def generateStrengths (creditScoreSubscore utilizationSubscore dtiSubscore depthMixSubscore : ℤ) : List String :=
  let strengths : List String := []
  let strengths := if creditScoreSubscore ≥ 80 then
    strengths ++ ["Strong core credit score positioning you favorably with lenders"] else strengths
  let strengths := if utilizationSubscore ≥ 80 then
    strengths ++ ["Low revolving utilization demonstrating strong credit management"] else strengths
  let strengths := if dtiSubscore ≥ 80 then
    strengths ++ ["Healthy debt-to-income profile showing strong repayment capacity"] else strengths
  let strengths := if depthMixSubscore ≥ 80 then
    strengths ++ ["Established credit history with good depth and account mix"] else strengths
  let strengths := if strengths.length = 0 then
    strengths ++ ["Active credit profile with opportunity for strategic optimization"] else strengths
  strengths.take 3

/-- `generateRisks` (scoring-engine.ts:266). -/
def generateRisks (utilizationSubscore dtiSubscore inquirySubscore penaltyPoints : ℤ) : List String :=
  let risks : List String := []
  let risks := if utilizationSubscore ≤ 50 then
    risks ++ ["High utilization is suppressing score and limiting available credit"] else risks
  let risks := if dtiSubscore ≤ 45 then
    risks ++ ["Elevated DTI ratio is constraining approval odds and loan amounts"] else risks
  let risks := if inquirySubscore ≤ 60 then
    risks ++ ["Recent inquiry activity is raising risk flags with underwriters"] else risks
  let risks := if penaltyPoints < 0 then
    risks ++ ["Recent derogatory events are significantly impacting approval probability"] else risks
  let risks := if risks.length = 0 then
    risks ++ ["Profile requires fine-tuning to maximize funding potential"] else risks
  risks.take 3

structure ActionItem where
  priority : ℤ
  action : String
deriving DecidableEq, Repr

/-- `generateHighImpactActions` (scoring-engine.ts:296).  JS `Array.sort` is
stable; `mergeSort` with the descending-priority comparison models it. -/
def generateHighImpactActions (input : FundabilityInput) (subscores : Subscores) : List String :=
  let actions : List ActionItem := []
  let actions := if subscores.utilizationSubscore ≤ 75 then
    actions ++ [ActionItem.mk (if subscores.utilizationSubscore ≤ 50 then 100 else 80)
      ("Pay down revolving balances to reduce utilization below 30% - current "
        ++ toString input.revolving_utilization_pct ++ "% is limiting approvals")] else actions
  let actions := if subscores.dtiSubscore ≤ 70 then
    actions ++ [ActionItem.mk (if subscores.dtiSubscore ≤ 45 then 95 else 75)
      "Target paying off 1-2 highest monthly payment accounts to improve DTI and boost approval odds"] else actions
  let actions := if subscores.inquirySubscore ≤ 60 then
    actions ++ [ActionItem.mk 85
      ("Avoid new credit applications for 60-90 days to let "
        ++ toString input.inquiries_6m ++ " recent inquiries age off impact period")] else actions
  let actions := if subscores.penaltyPoints < 0 then
    actions ++ [ActionItem.mk 90
      "Review and dispute any inaccurate derogatory marks; negotiate payment-for-deletion on valid collections"] else actions
  let actions := if subscores.depthMixSubscore ≤ 70 then
    actions ++ [ActionItem.mk 60
      "Add 1-2 new tradelines (authorized user or credit builder loan) to strengthen credit mix and depth"] else actions
  let actions := if subscores.creditScoreSubscore ≤ 65 then
    actions ++ [ActionItem.mk 70
      "Focus on on-time payments for next 6 months - payment history is the #1 score driver"] else actions
  let actions := if input.revolving_utilization_pct ≥ 50 ∧ subscores.creditScoreSubscore ≥ 65 then
    actions ++ [ActionItem.mk 85
      "Consider balance transfer or consolidation product to restructure expensive revolving debt at lower rates"] else actions
  let sorted := actions.mergeSort (fun a b => b.priority ≤ a.priority)
  (sorted.take 5).map (fun a => a.action)

/-- `calculateFundingRange` (scoring-engine.ts:371). -/
def calculateFundingRange (tier : ℤ) : String :=
  if tier = 1 then "Moderate–High ($50K–$150K+)"
  else if tier = 2 then "Moderate ($25K–$75K)"
  else if tier = 3 then "Low–Moderate ($10K–$50K)"
  else if tier = 4 then "Low ($5K–$25K)"
  else "Low"

/-- `calculateOptimizedFundingRange` (scoring-engine.ts:381).  Its three
numeric arguments are the utilization, DTI and inquiry SUBSCORES: the call
site (scoring-engine.ts:87-92) passes `utilizationSubscore`, `dtiSubscore`,
`inquirySubscore`. -/
def calculateOptimizedFundingRange (tier utilization dti inquiry : ℤ) : String :=
  let hasOptimizationPotential := utilization ≤ 75 ∨ dti ≤ 70 ∨ inquiry ≤ 60
  if ¬hasOptimizationPotential then
    calculateFundingRange tier
  else
    let optimizedTier := max 1 (tier - 1)
    if optimizedTier = 1 then "High ($75K–$200K+)"
    else if optimizedTier = 2 then "Moderate–High ($50K–$125K)"
    else if optimizedTier = 3 then "Moderate ($25K–$75K)"
    else if optimizedTier = 4 then "Low–Moderate ($15K–$50K)"
    else "Moderate"

/-- `generateGoalPath` (scoring-engine.ts:408). -/
def generateGoalPath (goal : PrimaryGoal) (tier : ℤ) : String :=
  match goal with
  | .startup_funding =>
    if tier ≥ 3 then "Credit optimization → secured/alternative startup capital → traditional business funding"
    else "Direct path to startup funding with credit-backed business lines and term loans"
  | .business_funding =>
    if tier ≥ 3 then "Strengthen credit profile → explore revenue-based or collateral-backed options → scale to unsecured lines"
    else "Ready for unsecured business lines, equipment financing, and SBA products"
  | .debt_consolidation =>
    if tier ≥ 3 then "Targeted consolidation of high-APR debt → rebuild utilization → qualify for larger business funding"
    else "Consolidate with balance transfer or personal loan → leverage improved profile for business capital"
  | .improve_credit =>
    "Execute high-impact actions over 90-180 days → re-position for prime funding opportunities"
  | .lower_utilization =>
    if tier ≥ 3 then "Pay down revolving debt or secure consolidation loan → improved scores unlock better funding products"
    else "Strategic utilization reduction → immediate access to expanded credit lines and funding"
  | .raise_score_fast =>
    "Focus on rapid-impact tactics: utilization reduction, dispute errors, add authorized user tradelines"
  | .not_sure =>
    if tier ≥ 3 then "Strengthen fundability foundation → explore funding options aligned with business goals"
    else "Strong fundability position - evaluate business vs personal funding needs and optimal structure"

/-- `calculateFundabilitySnapshot` (scoring-engine.ts:33).  `now` stands for
`new Date().toISOString()`. -/
def calculateFundabilitySnapshot (input : FundabilityInput) (now : String) : FundabilitySnapshot :=
  let creditScoreSubscore := calculateCreditScoreSubscore input.credit_score
  let utilizationSubscore := calculateUtilizationSubscore input.revolving_utilization_pct
  let dtiSubscore := calculateDTISubscore input.dti_pct
  let inquirySubscore := calculateInquirySubscore input.inquiries_6m
  let depthMixSubscore := calculateDepthMixSubscore input.oldest_account_years input.open_tradelines
  let penaltyPoints := calculatePenaltyPoints input.bk_or_major_event input.recent_derogs_24m
  let subscores : Subscores :=
    { creditScoreSubscore, utilizationSubscore, dtiSubscore,
      inquirySubscore, depthMixSubscore, penaltyPoints }
  let fundabilityScore := calculateWeightedScore subscores
  let tier := determineTier fundabilityScore
  let strengths := generateStrengths creditScoreSubscore utilizationSubscore dtiSubscore depthMixSubscore
  let risks := generateRisks utilizationSubscore dtiSubscore inquirySubscore penaltyPoints
  let actions := generateHighImpactActions input subscores
  let fundingRangeNow := calculateFundingRange tier.1
  let fundingRangeOptimized := calculateOptimizedFundingRange tier.1 utilizationSubscore dtiSubscore inquirySubscore
  let goalPath := generateGoalPath input.primary_goal tier.1
  { fundability_score := fundabilityScore
    fundability_tier_numeric := tier.1
    fundability_tier_label := tier.2
    subscores :=
      { credit_score_subscore := creditScoreSubscore
        utilization_subscore := utilizationSubscore
        dti_subscore := dtiSubscore
        inquiry_subscore := inquirySubscore
        depth_mix_subscore := depthMixSubscore
        penalty_points := penaltyPoints }
    key_strengths := strengths
    key_risks := risks
    high_impact_actions := actions
    funding_range_now := fundingRangeNow
    funding_range_after_optimization := fundingRangeOptimized
    goal_path := goalPath
    flags :=
      { missing_credit_score := input.credit_score = none
        missing_utilization := false
        missing_dti := input.dti_pct = none
        high_risk_profile := tier.1 = 4 ∨ penaltyPoints ≤ -20 }
    meta :=
      { version := "fs_engine_v1.0"
        generated_at := now } }

/-- The constraints the validator enforces on the validated record (§3 of
the spec / `validateInput` in `lib/validation.ts`): ranges on the numeric
fields and integrality where `Number.isInteger` is checked. -/
def ValidInput (i : FundabilityInput) : Prop :=
  (∀ c ∈ i.credit_score, 300 ≤ c ∧ c ≤ 850)
  ∧ 0 ≤ i.revolving_utilization_pct ∧ i.revolving_utilization_pct ≤ 100
  ∧ (∀ d ∈ i.dti_pct, 0 ≤ d ∧ d ≤ 100)
  ∧ 0 ≤ i.inquiries_6m ∧ i.inquiries_6m.den = 1
  ∧ 0 ≤ i.oldest_account_years
  ∧ 0 ≤ i.open_tradelines ∧ i.open_tradelines.den = 1
  ∧ 0 ≤ i.recent_derogs_24m ∧ i.recent_derogs_24m.den = 1
  ∧ 0 < i.requested_amount

instance (i : FundabilityInput) : Decidable (ValidInput i) := by
  unfold ValidInput
  exact inferInstance

/-- The weighted score in integer form: the ℚ arithmetic of
`calculateWeightedScore` collapses to one integer floor-division, which the
kernel can evaluate. -/
theorem calculateWeightedScore_eq (s : Subscores) :
    calculateWeightedScore s =
      max 0 (min 100 ((30 * s.creditScoreSubscore + 25 * s.utilizationSubscore
        + 20 * s.dtiSubscore + 10 * s.inquirySubscore + 10 * s.depthMixSubscore
        + 100 * s.penaltyPoints + 50) / 100)) := by
  simp only [calculateWeightedScore, jsRound_eq]
  have h : ((s.creditScoreSubscore : ℚ) * (30/100)
      + (s.utilizationSubscore : ℚ) * (25/100)
      + (s.dtiSubscore : ℚ) * (20/100)
      + (s.inquirySubscore : ℚ) * (10/100)
      + (s.depthMixSubscore : ℚ) * (10/100)
      + (s.penaltyPoints : ℚ)) + 1/2
      = (((30 * s.creditScoreSubscore + 25 * s.utilizationSubscore
        + 20 * s.dtiSubscore + 10 * s.inquirySubscore + 10 * s.depthMixSubscore
        + 100 * s.penaltyPoints + 50 : ℤ) : ℚ)) / ((100 : ℕ) : ℚ) := by
    push_cast
    ring
  rw [h, Rat.floor_intCast_div_natCast]
  norm_num

/-! ### Input validator (`validateInput`, `lib/validation.ts` as listed in
`src/QUICK_START.md`)

The validator receives an untyped JS record (`body: any`).  `JVal` models a
JS value of the shapes the validator inspects; a `RawBody` field of `none`
is an absent (`undefined`) property and `some .jnull` is an explicit
`null`. -/

inductive JVal where
  | num (q : ℚ)
  | str (s : String)
  | bool (b : Bool)
  | jnull
deriving DecidableEq, Repr

def JVal.isNum : JVal → Bool
  | .num _ => true
  | _ => false

def JVal.isStr : JVal → Bool
  | .str _ => true
  | _ => false

def JVal.isBool : JVal → Bool
  | .bool _ => true
  | _ => false

def JVal.numVal : JVal → ℚ
  | .num q => q
  | _ => 0

def JVal.strVal : JVal → String
  | .str s => s
  | _ => ""

/-- JS truthiness of a possibly-absent value (`!x` is true for `undefined`,
`null`, `""`, `0` and `false`). -/
def truthy : Option JVal → Bool
  | none => false
  | some .jnull => false
  | some (.str s) => !s.isEmpty
  | some (.num q) => decide (q ≠ 0)
  | some (.bool b) => b

/-- `x !== null && x !== undefined`. -/
def present : Option JVal → Bool
  | none => false
  | some .jnull => false
  | some _ => true

/-- JS nullish coalescing `x ?? d`. -/
def nullish : Option JVal → JVal → JVal
  | none, d => d
  | some .jnull, d => d
  | some v, _ => v

/-- `Number.isInteger` on an exact rational. -/
def jsIsInteger (q : ℚ) : Bool := q.den = 1

/-- A character matched by the regex class `[^\s@]`. -/
def emailSegChar (c : Char) : Bool := c ≠ '@' && !c.isWhitespace

/-- `isValidEmail` (lib/validation.ts): the string matches
`^[^\s@]+@[^\s@]+\.[^\s@]+$`, i.e. it splits at a unique `@` into a
nonempty whitespace-free local part and a domain that is whitespace-free
and has a `.` at an interior position (the class excludes `@`, so a match
has exactly one `@`). -/
def isValidEmail (email : String) : Bool :=
  let cs := email.toList
  let a := cs.takeWhile (fun c => c != '@')
  let d := (cs.dropWhile (fun c => c != '@')).drop 1
  decide (cs.count '@' = 1) && !a.isEmpty
    && a.all (fun c => !c.isWhitespace)
    && d.all (fun c => !c.isWhitespace)
    && ((d.drop 1).dropLast.contains '.')

/-- The untyped request body: every property the validator reads. -/
structure RawBody where
  first_name : Option JVal := none
  last_name : Option JVal := none
  email : Option JVal := none
  credit_score : Option JVal := none
  revolving_utilization_pct : Option JVal := none
  dti_pct : Option JVal := none
  inquiries_6m : Option JVal := none
  oldest_account_years : Option JVal := none
  open_tradelines : Option JVal := none
  recent_derogs_24m : Option JVal := none
  bk_or_major_event : Option JVal := none
  requested_amount : Option JVal := none
  primary_goal : Option JVal := none
  estimated_home_value : Option JVal := none
  mortgage_balance : Option JVal := none
  source : Option JVal := none
  external_contact_id : Option JVal := none
deriving DecidableEq, Repr

/-- `ValidationResult` (lib/validation.ts). -/
structure ValidationResult where
  valid : Bool
  data : Option FundabilityInput
  errors : Option (List String)
deriving DecidableEq, Repr

def goalMsg : String :=
  "primary_goal is required and must be one of: startup_funding, business_funding, debt_consolidation, improve_credit, lower_utilization, raise_score_fast, not_sure"

def parseGoal : String → Option PrimaryGoal
  | "startup_funding" => some .startup_funding
  | "business_funding" => some .business_funding
  | "debt_consolidation" => some .debt_consolidation
  | "improve_credit" => some .improve_credit
  | "lower_utilization" => some .lower_utilization
  | "raise_score_fast" => some .raise_score_fast
  | "not_sure" => some .not_sure
  | _ => none

/-- `validGoals.includes(body.primary_goal)`: string comparison against the
7 enumeration values (false for any non-string value). -/
def goalIncluded (v : JVal) : Bool :=
  match v with
  | .str s => (parseGoal s).isSome
  | _ => false

/-- The validated record built on the success path, with the `??` defaults
of the source applied (`buildValidated` extracts exactly the property
values; the fallbacks of `numVal`/`strVal` are unreachable after a clean
validation). -/
def buildValidated (b : RawBody) : FundabilityInput :=
  { first_name := (nullish b.first_name (.str "")).strVal
    last_name := (nullish b.last_name (.str "")).strVal
    email := (nullish b.email (.str "")).strVal
    credit_score := if present b.credit_score then some (nullish b.credit_score .jnull).numVal else none
    revolving_utilization_pct := (nullish b.revolving_utilization_pct (.num 0)).numVal
    dti_pct := if present b.dti_pct then some (nullish b.dti_pct .jnull).numVal else none
    inquiries_6m := (nullish b.inquiries_6m (.num 0)).numVal
    oldest_account_years := (nullish b.oldest_account_years (.num 0)).numVal
    open_tradelines := (nullish b.open_tradelines (.num 0)).numVal
    recent_derogs_24m := (nullish b.recent_derogs_24m (.num 0)).numVal
    bk_or_major_event := match nullish b.bk_or_major_event (.bool false) with
      | .bool v => v
      | _ => false
    requested_amount := (nullish b.requested_amount (.num 0)).numVal
    primary_goal := (parseGoal (nullish b.primary_goal (.str "")).strVal).getD .not_sure
    estimated_home_value := if present b.estimated_home_value then some (nullish b.estimated_home_value .jnull).numVal else none
    mortgage_balance := if present b.mortgage_balance then some (nullish b.mortgage_balance .jnull).numVal else none
    source := match b.source with
      | some (.str s) => some s
      | _ => none
    external_contact_id := match b.external_contact_id with
      | some (.str s) => some s
      | _ => none }

/-- Constraint 1: `first_name` required string. -/
def checkFirstName (b : RawBody) : Option String :=
  if !truthy b.first_name || !(nullish b.first_name .jnull).isStr then
    some "first_name is required and must be a string" else none

/-- Constraint 2: `last_name` required string. -/
def checkLastName (b : RawBody) : Option String :=
  if !truthy b.last_name || !(nullish b.last_name .jnull).isStr then
    some "last_name is required and must be a string" else none

/-- Constraint 3: `email` required, string, matches the email regex. -/
def checkEmail (b : RawBody) : Option String :=
  if !truthy b.email || !(nullish b.email .jnull).isStr
      || !isValidEmail (nullish b.email .jnull).strVal then
    some "email is required and must be a valid email address" else none

/-- Constraint 4: `credit_score` in [300, 850] when present. -/
def checkCreditScore (b : RawBody) : Option String :=
  if present b.credit_score
      && (!(nullish b.credit_score .jnull).isNum
        || (nullish b.credit_score .jnull).numVal < 300
        || (nullish b.credit_score .jnull).numVal > 850) then
    some "credit_score must be between 300 and 850, or null" else none

/-- Constraint 5: `revolving_utilization_pct` required number in [0, 100]. -/
def checkUtilization (b : RawBody) : Option String :=
  if !(present b.revolving_utilization_pct)
      || !(nullish b.revolving_utilization_pct .jnull).isNum
      || (nullish b.revolving_utilization_pct .jnull).numVal < 0
      || (nullish b.revolving_utilization_pct .jnull).numVal > 100 then
    some "revolving_utilization_pct is required and must be between 0 and 100" else none

/-- Constraint 6: `dti_pct` in [0, 100] when present. -/
def checkDti (b : RawBody) : Option String :=
  if present b.dti_pct
      && (!(nullish b.dti_pct .jnull).isNum
        || (nullish b.dti_pct .jnull).numVal < 0
        || (nullish b.dti_pct .jnull).numVal > 100) then
    some "dti_pct must be between 0 and 100, or null" else none

/-- Constraint 7: `inquiries_6m ?? 0` non-negative integer. -/
def checkInquiries (b : RawBody) : Option String :=
  if !(nullish b.inquiries_6m (.num 0)).isNum
      || (nullish b.inquiries_6m (.num 0)).numVal < 0
      || !jsIsInteger (nullish b.inquiries_6m (.num 0)).numVal then
    some "inquiries_6m must be a non-negative integer" else none

/-- Constraint 8: `oldest_account_years ?? 0` non-negative number. -/
def checkOldestYears (b : RawBody) : Option String :=
  if !(nullish b.oldest_account_years (.num 0)).isNum
      || (nullish b.oldest_account_years (.num 0)).numVal < 0 then
    some "oldest_account_years must be a non-negative number" else none

/-- Constraint 9: `open_tradelines` required non-negative integer. -/
def checkTradelines (b : RawBody) : Option String :=
  if !(present b.open_tradelines)
      || !(nullish b.open_tradelines .jnull).isNum
      || (nullish b.open_tradelines .jnull).numVal < 0
      || !jsIsInteger (nullish b.open_tradelines .jnull).numVal then
    some "open_tradelines is required and must be a non-negative integer" else none

/-- Constraint 10: `recent_derogs_24m ?? 0` non-negative integer. -/
def checkDerogs (b : RawBody) : Option String :=
  if !(nullish b.recent_derogs_24m (.num 0)).isNum
      || (nullish b.recent_derogs_24m (.num 0)).numVal < 0
      || !jsIsInteger (nullish b.recent_derogs_24m (.num 0)).numVal then
    some "recent_derogs_24m must be a non-negative integer" else none

/-- Constraint 11: `bk_or_major_event ?? false` boolean. -/
def checkBk (b : RawBody) : Option String :=
  if !(nullish b.bk_or_major_event (.bool false)).isBool then
    some "bk_or_major_event must be a boolean" else none

/-- Constraint 12: `requested_amount` required positive number. -/
def checkRequestedAmount (b : RawBody) : Option String :=
  if !(present b.requested_amount)
      || !(nullish b.requested_amount .jnull).isNum
      || (nullish b.requested_amount .jnull).numVal ≤ 0 then
    some "requested_amount is required and must be a positive number" else none

/-- Constraint 13: `primary_goal` required and one of the 7 values. -/
def checkPrimaryGoal (b : RawBody) : Option String :=
  if !truthy b.primary_goal || !goalIncluded (nullish b.primary_goal .jnull) then
    some goalMsg else none

/-- The 13 constraint checks of `validateInput`, in source order: each is
`some message` when violated, `none` when satisfied. -/
def constraintChecks (b : RawBody) : List (Option String) :=
  [ checkFirstName b, checkLastName b, checkEmail b, checkCreditScore b,
    checkUtilization b, checkDti b, checkInquiries b, checkOldestYears b,
    checkTradelines b, checkDerogs b, checkBk b, checkRequestedAmount b,
    checkPrimaryGoal b ]

/-- `validateInput` (lib/validation.ts): pushes one message per violated
constraint into `errors` (13 sequential `errors.push` sites, one per
constraint, in source order), then returns the error list, or builds the
validated record when no constraint is violated.

A type test such as `typeof x !== 'number'` together with the range tests
that follow it is modelled by the same disjunction on `JVal`; a `typeof`
test on a field that was read without `??` (e.g. utilization) fails for
`undefined` and `null` as well, which `!present` captures. -/
def validateInput (b : RawBody) : ValidationResult :=
  let errors : List String := []
  let errors := errors ++ (checkFirstName b).toList
  let errors := errors ++ (checkLastName b).toList
  let errors := errors ++ (checkEmail b).toList
  let errors := errors ++ (checkCreditScore b).toList
  let errors := errors ++ (checkUtilization b).toList
  let errors := errors ++ (checkDti b).toList
  let errors := errors ++ (checkInquiries b).toList
  let errors := errors ++ (checkOldestYears b).toList
  let errors := errors ++ (checkTradelines b).toList
  let errors := errors ++ (checkDerogs b).toList
  let errors := errors ++ (checkBk b).toList
  let errors := errors ++ (checkRequestedAmount b).toList
  let errors := errors ++ (checkPrimaryGoal b).toList
  if errors.length > 0 then
    { valid := false, data := none, errors := some errors }
  else
    { valid := true, data := some (buildValidated b), errors := none }

theorem filterMap_id_eq_flatten_map (l : List (Option String)) :
    l.filterMap id = (l.map Option.toList).flatten := by
  induction l with
  | nil => rfl
  | cons a t ih => cases a <;> simp [List.filterMap_cons, ih]

/-- The error list `validateInput` accumulates is exactly the sequence of
messages of the violated constraints, in constraint order. -/
theorem validateInput_eq (b : RawBody) :
    validateInput b =
      (if ((constraintChecks b).filterMap id).length > 0 then
        { valid := false, data := none, errors := some ((constraintChecks b).filterMap id) }
      else
        { valid := true, data := some (buildValidated b), errors := none }) := by
  simp only [validateInput, constraintChecks, filterMap_id_eq_flatten_map,
    List.map_cons, List.map_nil, List.flatten_cons, List.flatten_nil,
    List.nil_append, List.append_nil, List.append_assoc]

/-! ### Batch runner (`processBatch`, `src/unnamed/part_002`)

The runner splits the client list into chunks of `concurrency`, runs each
chunk with `Promise.all`, and appends each settled item to `success` or
`failed` in order; chunking, the inter-chunk delay and the `onProgress` /
`onError` callbacks affect only timing and logging, so the collected lists
equal an in-order map over the whole collection.  Webhooks default to `[]`
and are not configured here.  `duration_ms` (wall time) is not modelled. -/

structure BatchItem where
  status : String
  clientName : String
  clientEmail : String
  result : Option FundabilitySnapshot
  error : Option String
deriving DecidableEq, Repr

structure BatchSummary where
  total : ℕ
  successful : ℕ
  failed : ℕ
deriving DecidableEq, Repr

structure BatchResult where
  success : List BatchItem
  failed : List BatchItem
  summary : BatchSummary
deriving DecidableEq, Repr

/-- Reading `.length` on a `ValidationResult`: the interface declares no
such property, so the JS property access yields `undefined`. -/
def jsLengthProperty (_result : ValidationResult) : Option ℕ := none

/-- The JS comparison `x > 0` where `x` may be `undefined`
(`undefined > 0` is `false`). -/
def jsGtZero : Option ℕ → Bool
  | none => false
  | some n => decide (n > 0)

/-- One iteration of the `chunk.map(async (client) => ...)` body of
`processBatch`.  The source tests
`validateInput(client).length > 0`, reading `.length` from the
`ValidationResult` object; since that property does not exist, the test is
`undefined > 0`, i.e. always false, so the `throw`/catch failure path is
never entered and every client is scored.  (`calculateFundabilitySnapshot`
is then applied to the client record's own field values, which
`buildValidated` extracts.) -/
def processBatchItem (client : RawBody) (now : String) : BatchItem :=
  let validationResult := validateInput client
  if jsGtZero (jsLengthProperty validationResult) then
    { status := "failed"
      clientName := (nullish client.first_name (.str "")).strVal ++ " "
        ++ (nullish client.last_name (.str "")).strVal
      clientEmail := (nullish client.email (.str "")).strVal
      result := none
      error := some "Validation failed: " }
  else
    { status := "success"
      clientName := (nullish client.first_name (.str "")).strVal ++ " "
        ++ (nullish client.last_name (.str "")).strVal
      clientEmail := (nullish client.email (.str "")).strVal
      result := some (calculateFundabilitySnapshot (buildValidated client) now)
      error := none }

/-- `processBatch` (src/unnamed/part_002:53-108). -/
def processBatch (clients : List RawBody) (now : String) : BatchResult :=
  let items := clients.map (fun client => processBatchItem client now)
  let success := items.filter (fun r => r.status == "success")
  let failed := items.filter (fun r => r.status != "success")
  { success := success
    failed := failed
    summary :=
      { total := clients.length
        successful := success.length
        failed := failed.length } }

/-! ### Helpers for stating claims about strings -/

def isPrefixChars : List Char → List Char → Bool
  | [], _ => true
  | _ :: _, [] => false
  | a :: as, b :: bs => a == b && isPrefixChars as bs

def containsChars (need : List Char) : List Char → Bool
  | [] => need.isEmpty
  | c :: rest => isPrefixChars need (c :: rest) || containsChars need rest

/-- `hay` has `need` as a contiguous substring. -/
def strContains (hay need : String) : Bool := containsChars need.toList hay.toList

/-! ### Shared concrete inputs -/

def sampleInput : FundabilityInput :=
  { first_name := "Ada", last_name := "Lovelace", email := "ada@example.com",
    credit_score := some 720, revolving_utilization_pct := 25, dti_pct := some 30,
    inquiries_6m := 1, oldest_account_years := 10, open_tradelines := 8,
    recent_derogs_24m := 0, bk_or_major_event := false, requested_amount := 50000,
    primary_goal := .business_funding, estimated_home_value := none,
    mortgage_balance := none, source := none, external_contact_id := none }

def validBody : RawBody :=
  { first_name := some (.str "Ada"), last_name := some (.str "Lovelace"),
    email := some (.str "ada@example.com"), credit_score := some (.num 720),
    revolving_utilization_pct := some (.num 25), dti_pct := some (.num 30),
    inquiries_6m := some (.num 1), oldest_account_years := some (.num 10),
    open_tradelines := some (.num 8), recent_derogs_24m := some (.num 0),
    bk_or_major_event := some (.bool false), requested_amount := some (.num 50000),
    primary_goal := some (.str "business_funding") }

/-- A request body that is fully well-typed except that
`revolving_utilization_pct` is 150, outside the 0-100 bound. -/
def overUtilizedBody : RawBody :=
  { validBody with revolving_utilization_pct := some (.num 150) }

/-! ### Subscore bounds and monotonicity lemmas -/

theorem calculateCreditScoreSubscore_le (s : Option ℚ) :
    calculateCreditScoreSubscore s ≤ 95 := by
  rcases s with _ | s
  · norm_num [calculateCreditScoreSubscore]
  · simp only [calculateCreditScoreSubscore]
    split_ifs <;> norm_num

theorem calculateUtilizationSubscore_le (u : ℚ) :
    calculateUtilizationSubscore u ≤ 95 := by
  unfold calculateUtilizationSubscore
  split_ifs <;> norm_num

theorem calculateDTISubscore_le (d : Option ℚ) :
    calculateDTISubscore d ≤ 95 := by
  rcases d with _ | d
  · norm_num [calculateDTISubscore]
  · simp only [calculateDTISubscore]
    split_ifs <;> norm_num

theorem calculateInquirySubscore_le (q : ℚ) :
    calculateInquirySubscore q ≤ 95 := by
  unfold calculateInquirySubscore
  split_ifs <;> norm_num

theorem calculateDepthMixSubscore_le (y t : ℚ) :
    calculateDepthMixSubscore y t ≤ 95 := by
  unfold calculateDepthMixSubscore
  split_ifs <;> norm_num

theorem calculatePenaltyPoints_nonpos (b : Bool) (d : ℚ) :
    calculatePenaltyPoints b d ≤ 0 := by
  simp only [calculatePenaltyPoints]
  split_ifs <;> decide

theorem calculateCreditScoreSubscore_mono {c c' : ℚ} (h : c ≤ c') :
    calculateCreditScoreSubscore (some c) ≤ calculateCreditScoreSubscore (some c') := by
  simp only [calculateCreditScoreSubscore]
  split_ifs <;> linarith

theorem calculateUtilizationSubscore_anti {u u' : ℚ} (h : u' ≤ u) :
    calculateUtilizationSubscore u ≤ calculateUtilizationSubscore u' := by
  unfold calculateUtilizationSubscore
  split_ifs <;> linarith

theorem calculateDTISubscore_anti {d d' : ℚ} (h : d' ≤ d) :
    calculateDTISubscore (some d) ≤ calculateDTISubscore (some d') := by
  simp only [calculateDTISubscore]
  split_ifs <;> linarith

theorem calculateInquirySubscore_anti {q q' : ℚ} (h : q' ≤ q) :
    calculateInquirySubscore q ≤ calculateInquirySubscore q' := by
  unfold calculateInquirySubscore
  split_ifs <;> linarith

/-- `calculateWeightedScore` is monotone in each positive subscore and in
the penalty. -/
theorem calculateWeightedScore_mono {s₁ s₂ : Subscores}
    (hc : s₁.creditScoreSubscore ≤ s₂.creditScoreSubscore)
    (hu : s₁.utilizationSubscore ≤ s₂.utilizationSubscore)
    (hd : s₁.dtiSubscore ≤ s₂.dtiSubscore)
    (hi : s₁.inquirySubscore ≤ s₂.inquirySubscore)
    (hm : s₁.depthMixSubscore ≤ s₂.depthMixSubscore)
    (hp : s₁.penaltyPoints ≤ s₂.penaltyPoints) :
    calculateWeightedScore s₁ ≤ calculateWeightedScore s₂ := by
  rw [calculateWeightedScore_eq, calculateWeightedScore_eq]
  have hN : 30 * s₁.creditScoreSubscore + 25 * s₁.utilizationSubscore
      + 20 * s₁.dtiSubscore + 10 * s₁.inquirySubscore + 10 * s₁.depthMixSubscore
      + 100 * s₁.penaltyPoints + 50
      ≤ 30 * s₂.creditScoreSubscore + 25 * s₂.utilizationSubscore
      + 20 * s₂.dtiSubscore + 10 * s₂.inquirySubscore + 10 * s₂.depthMixSubscore
      + 100 * s₂.penaltyPoints + 50 := by omega
  exact max_le_max le_rfl (min_le_min le_rfl (Int.ediv_le_ediv (by norm_num) hN))

/-! ### Claim theorems -/

/-- C5: for every bankruptcy/major-event flag and every non-negative derog
count, the penalty equals −25 for the flag plus −20 when derogs ≥ 3 or
−10 when derogs are 1–2 (0 otherwise), clamped to a floor of −35, and no
combination ever produces a penalty below −35. -/
theorem penalty_points_formula_and_floor (b : Bool) (n : ℕ) :
    calculatePenaltyPoints b (n : ℚ)
        = max (-35) ((if b then (-25 : ℤ) else 0)
          + (if 3 ≤ n then (-20 : ℤ) else if 1 ≤ n ∧ n ≤ 2 then -10 else 0))
      ∧ -35 ≤ calculatePenaltyPoints b (n : ℚ) := by
  have h3 : ((3 : ℚ) ≤ (n : ℚ)) ↔ 3 ≤ n := by exact_mod_cast Iff.rfl
  have h1 : ((1 : ℚ) ≤ (n : ℚ)) ↔ 1 ≤ n := by exact_mod_cast Iff.rfl
  constructor
  · simp only [calculatePenaltyPoints, ge_iff_le, h3, h1]
    rcases b with _ | _ <;> split_ifs <;> omega
  · simp only [calculatePenaltyPoints]
    exact le_max_right _ _

def i30 : FundabilityInput := { sampleInput with revolving_utilization_pct := 30 }

/-- C4 counterexample: a validated input with utilization exactly 30
receives utilization subscore 75, not the claimed 90 (the `< 30` branch
excludes 30 itself). -/
theorem utilization30_subscore_counterexample :
    ValidInput i30 ∧ i30.revolving_utilization_pct = 30
      ∧ (calculateFundabilitySnapshot i30 "2026-01-01T00:00:00.000Z").subscores.utilization_subscore = 75
      ∧ (75 : ℤ) ≠ 90 :=
  ⟨by decide, by decide, by decide, by decide⟩

/-- C4 amended: for every validated input whose revolving utilization
percent is exactly 30, the utilization subscore is 75. -/
theorem utilization30_subscore_amended (i : FundabilityInput) (now : String)
    (_hv : ValidInput i) (h30 : i.revolving_utilization_pct = 30) :
    (calculateFundabilitySnapshot i now).subscores.utilization_subscore = 75 := by
  show calculateUtilizationSubscore i.revolving_utilization_pct = 75
  rw [h30]
  decide

theorem utilization30_subscore_amended_witness :
    ValidInput i30 ∧ i30.revolving_utilization_pct = 30
      ∧ (calculateFundabilitySnapshot i30 "t").subscores.utilization_subscore = 75 :=
  ⟨by decide, by decide, utilization30_subscore_amended i30 "t" (by decide) (by decide)⟩

/-- C1: for every validated input, the aggregate fundability score equals
the weighted sum of the five positive subscores with weights 0.30, 0.25,
0.20, 0.10, 0.10, plus the raw (negative) penalty with no weight
multiplier, rounded to the nearest integer (half toward +∞) and clamped
into [0, 100]. -/
theorem fundability_score_is_weighted_clamped (i : FundabilityInput) (now : String)
    (_hv : ValidInput i) :
    (calculateFundabilitySnapshot i now).fundability_score =
      max 0 (min 100 ⌊(calculateCreditScoreSubscore i.credit_score : ℚ) * (30/100)
        + (calculateUtilizationSubscore i.revolving_utilization_pct : ℚ) * (25/100)
        + (calculateDTISubscore i.dti_pct : ℚ) * (20/100)
        + (calculateInquirySubscore i.inquiries_6m : ℚ) * (10/100)
        + (calculateDepthMixSubscore i.oldest_account_years i.open_tradelines : ℚ) * (10/100)
        + (calculatePenaltyPoints i.bk_or_major_event i.recent_derogs_24m : ℚ) + 1/2⌋) := by
  have h : (calculateFundabilitySnapshot i now).fundability_score
      = calculateWeightedScore
          ⟨calculateCreditScoreSubscore i.credit_score,
            calculateUtilizationSubscore i.revolving_utilization_pct,
            calculateDTISubscore i.dti_pct,
            calculateInquirySubscore i.inquiries_6m,
            calculateDepthMixSubscore i.oldest_account_years i.open_tradelines,
            calculatePenaltyPoints i.bk_or_major_event i.recent_derogs_24m⟩ := rfl
  rw [h]
  simp only [calculateWeightedScore, jsRound_eq]

theorem fundability_score_is_weighted_clamped_witness :
    ValidInput sampleInput ∧
      (calculateFundabilitySnapshot sampleInput "t").fundability_score =
        max 0 (min 100 ⌊(calculateCreditScoreSubscore sampleInput.credit_score : ℚ) * (30/100)
          + (calculateUtilizationSubscore sampleInput.revolving_utilization_pct : ℚ) * (25/100)
          + (calculateDTISubscore sampleInput.dti_pct : ℚ) * (20/100)
          + (calculateInquirySubscore sampleInput.inquiries_6m : ℚ) * (10/100)
          + (calculateDepthMixSubscore sampleInput.oldest_account_years sampleInput.open_tradelines : ℚ) * (10/100)
          + (calculatePenaltyPoints sampleInput.bk_or_major_event sampleInput.recent_derogs_24m : ℚ) + 1/2⌋) :=
  ⟨by decide, fundability_score_is_weighted_clamped sampleInput "t" (by decide)⟩

/-- C6: two calls with the same validated input produce identical
snapshots in every field except `meta.generated_at`, which carries the
clock value of each call. -/
theorem snapshot_pure_modulo_timestamp (i : FundabilityInput) (t₁ t₂ : String)
    (_hv : ValidInput i) :
    (calculateFundabilitySnapshot i t₁).fundability_score = (calculateFundabilitySnapshot i t₂).fundability_score
    ∧ (calculateFundabilitySnapshot i t₁).fundability_tier_numeric = (calculateFundabilitySnapshot i t₂).fundability_tier_numeric
    ∧ (calculateFundabilitySnapshot i t₁).fundability_tier_label = (calculateFundabilitySnapshot i t₂).fundability_tier_label
    ∧ (calculateFundabilitySnapshot i t₁).subscores = (calculateFundabilitySnapshot i t₂).subscores
    ∧ (calculateFundabilitySnapshot i t₁).key_strengths = (calculateFundabilitySnapshot i t₂).key_strengths
    ∧ (calculateFundabilitySnapshot i t₁).key_risks = (calculateFundabilitySnapshot i t₂).key_risks
    ∧ (calculateFundabilitySnapshot i t₁).high_impact_actions = (calculateFundabilitySnapshot i t₂).high_impact_actions
    ∧ (calculateFundabilitySnapshot i t₁).funding_range_now = (calculateFundabilitySnapshot i t₂).funding_range_now
    ∧ (calculateFundabilitySnapshot i t₁).funding_range_after_optimization = (calculateFundabilitySnapshot i t₂).funding_range_after_optimization
    ∧ (calculateFundabilitySnapshot i t₁).goal_path = (calculateFundabilitySnapshot i t₂).goal_path
    ∧ (calculateFundabilitySnapshot i t₁).flags = (calculateFundabilitySnapshot i t₂).flags
    ∧ (calculateFundabilitySnapshot i t₁).meta.version = (calculateFundabilitySnapshot i t₂).meta.version
    ∧ (calculateFundabilitySnapshot i t₁).meta.generated_at = t₁
    ∧ (calculateFundabilitySnapshot i t₂).meta.generated_at = t₂ :=
  ⟨rfl, rfl, rfl, rfl, rfl, rfl, rfl, rfl, rfl, rfl, rfl, rfl, rfl, rfl⟩

theorem snapshot_pure_modulo_timestamp_witness :
    ValidInput sampleInput ∧
      (calculateFundabilitySnapshot sampleInput "2026-01-01T00:00:00.000Z").fundability_score
        = (calculateFundabilitySnapshot sampleInput "2026-02-02T00:00:00.000Z").fundability_score :=
  ⟨by decide, (snapshot_pure_modulo_timestamp sampleInput
    "2026-01-01T00:00:00.000Z" "2026-02-02T00:00:00.000Z" (by decide)).1⟩

/-- C9: for every validated input the aggregate fundability score is at
most 90: each positive subscore is at most 95, the weights sum to 0.95,
and the penalty is nonpositive. -/
theorem fundability_score_le_ninety (i : FundabilityInput) (now : String)
    (_hv : ValidInput i) :
    (calculateFundabilitySnapshot i now).fundability_score ≤ 90 := by
  have h : (calculateFundabilitySnapshot i now).fundability_score
      = calculateWeightedScore
          ⟨calculateCreditScoreSubscore i.credit_score,
            calculateUtilizationSubscore i.revolving_utilization_pct,
            calculateDTISubscore i.dti_pct,
            calculateInquirySubscore i.inquiries_6m,
            calculateDepthMixSubscore i.oldest_account_years i.open_tradelines,
            calculatePenaltyPoints i.bk_or_major_event i.recent_derogs_24m⟩ := rfl
  rw [h, calculateWeightedScore_eq]
  have hc := calculateCreditScoreSubscore_le i.credit_score
  have hu := calculateUtilizationSubscore_le i.revolving_utilization_pct
  have hd := calculateDTISubscore_le i.dti_pct
  have hi := calculateInquirySubscore_le i.inquiries_6m
  have hm := calculateDepthMixSubscore_le i.oldest_account_years i.open_tradelines
  have hp := calculatePenaltyPoints_nonpos i.bk_or_major_event i.recent_derogs_24m
  have hN : 30 * calculateCreditScoreSubscore i.credit_score
      + 25 * calculateUtilizationSubscore i.revolving_utilization_pct
      + 20 * calculateDTISubscore i.dti_pct
      + 10 * calculateInquirySubscore i.inquiries_6m
      + 10 * calculateDepthMixSubscore i.oldest_account_years i.open_tradelines
      + 100 * calculatePenaltyPoints i.bk_or_major_event i.recent_derogs_24m
      + 50 ≤ 9075 := by omega
  have hdiv := Int.ediv_le_ediv (show (0:ℤ) < 100 by norm_num) hN
  have h90 : (9075 : ℤ) / 100 = 90 := by decide
  rw [h90] at hdiv
  exact max_le (by norm_num) (le_trans (min_le_right _ _) hdiv)

theorem fundability_score_le_ninety_witness :
    ValidInput sampleInput ∧
      (calculateFundabilitySnapshot sampleInput "t").fundability_score ≤ 90 :=
  ⟨by decide, fundability_score_le_ninety sampleInput "t" (by decide)⟩

/-- The aggregate score field of a snapshot, as the weighted score of the
six subscores (definitional). -/
theorem snapshot_score (i : FundabilityInput) (now : String) :
    (calculateFundabilitySnapshot i now).fundability_score
      = calculateWeightedScore
          ⟨calculateCreditScoreSubscore i.credit_score,
            calculateUtilizationSubscore i.revolving_utilization_pct,
            calculateDTISubscore i.dti_pct,
            calculateInquirySubscore i.inquiries_6m,
            calculateDepthMixSubscore i.oldest_account_years i.open_tradelines,
            calculatePenaltyPoints i.bk_or_major_event i.recent_derogs_24m⟩ := rfl

/-- C2: holding all else fixed, decreasing utilization percent, decreasing
DTI percent (both numeric), decreasing inquiry count, or increasing credit
score (both numeric) never decreases the aggregate fundability score. -/
theorem aggregate_score_monotonicity :
    (∀ (i : FundabilityInput) (u : ℚ) (now : String), ValidInput i →
      ValidInput { i with revolving_utilization_pct := u } →
      u ≤ i.revolving_utilization_pct →
      (calculateFundabilitySnapshot i now).fundability_score
        ≤ (calculateFundabilitySnapshot { i with revolving_utilization_pct := u } now).fundability_score)
    ∧ (∀ (i : FundabilityInput) (d d' : ℚ) (now : String), ValidInput i →
      ValidInput { i with dti_pct := some d' } →
      i.dti_pct = some d → d' ≤ d →
      (calculateFundabilitySnapshot i now).fundability_score
        ≤ (calculateFundabilitySnapshot { i with dti_pct := some d' } now).fundability_score)
    ∧ (∀ (i : FundabilityInput) (q : ℚ) (now : String), ValidInput i →
      ValidInput { i with inquiries_6m := q } →
      q ≤ i.inquiries_6m →
      (calculateFundabilitySnapshot i now).fundability_score
        ≤ (calculateFundabilitySnapshot { i with inquiries_6m := q } now).fundability_score)
    ∧ (∀ (i : FundabilityInput) (c c' : ℚ) (now : String), ValidInput i →
      ValidInput { i with credit_score := some c' } →
      i.credit_score = some c → c ≤ c' →
      (calculateFundabilitySnapshot i now).fundability_score
        ≤ (calculateFundabilitySnapshot { i with credit_score := some c' } now).fundability_score) := by
  refine ⟨?_, ?_, ?_, ?_⟩
  · intro i u now _ _ hle
    rw [snapshot_score, snapshot_score]
    exact calculateWeightedScore_mono le_rfl (calculateUtilizationSubscore_anti hle)
      le_rfl le_rfl le_rfl le_rfl
  · intro i d d' now _ _ hd hle
    rw [snapshot_score, snapshot_score]
    refine calculateWeightedScore_mono le_rfl le_rfl ?_ le_rfl le_rfl le_rfl
    show calculateDTISubscore i.dti_pct ≤ calculateDTISubscore (some d')
    rw [hd]
    exact calculateDTISubscore_anti hle
  · intro i q now _ _ hle
    rw [snapshot_score, snapshot_score]
    exact calculateWeightedScore_mono le_rfl le_rfl le_rfl
      (calculateInquirySubscore_anti hle) le_rfl le_rfl
  · intro i c c' now _ _ hc hle
    rw [snapshot_score, snapshot_score]
    refine calculateWeightedScore_mono ?_ le_rfl le_rfl le_rfl le_rfl le_rfl
    show calculateCreditScoreSubscore i.credit_score ≤ calculateCreditScoreSubscore (some c')
    rw [hc]
    exact calculateCreditScoreSubscore_mono hle

theorem aggregate_score_monotonicity_witness :
    ValidInput sampleInput
    ∧ (calculateFundabilitySnapshot sampleInput "t").fundability_score
        ≤ (calculateFundabilitySnapshot { sampleInput with revolving_utilization_pct := 20 } "t").fundability_score
    ∧ (calculateFundabilitySnapshot sampleInput "t").fundability_score
        ≤ (calculateFundabilitySnapshot { sampleInput with dti_pct := some 20 } "t").fundability_score
    ∧ (calculateFundabilitySnapshot sampleInput "t").fundability_score
        ≤ (calculateFundabilitySnapshot { sampleInput with inquiries_6m := 0 } "t").fundability_score
    ∧ (calculateFundabilitySnapshot sampleInput "t").fundability_score
        ≤ (calculateFundabilitySnapshot { sampleInput with credit_score := some 760 } "t").fundability_score :=
  ⟨by decide,
    aggregate_score_monotonicity.1 sampleInput 20 "t" (by decide) (by decide) (by decide),
    aggregate_score_monotonicity.2.1 sampleInput 30 20 "t" (by decide) (by decide) (by decide) (by decide),
    aggregate_score_monotonicity.2.2.1 sampleInput 0 "t" (by decide) (by decide) (by decide),
    aggregate_score_monotonicity.2.2.2 sampleInput 720 760 "t" (by decide) (by decide) (by decide) (by decide)⟩

/-- The after-optimization range exactly as claim C3 states it: the bump is
triggered when the RAW utilization percent is ≤ 75, or the RAW DTI percent
is ≤ 70, or the inquiry SUBSCORE is ≤ 60.  This definition follows the
claim's words for comparison with the source's
`calculateOptimizedFundingRange`, which receives the utilization and DTI
subscores at its call site. -/
def claimedOptimizedFundingRange (i : FundabilityInput) : String :=
  let inquirySubscore := calculateInquirySubscore i.inquiries_6m
  let tier := (determineTier (calculateWeightedScore
    ⟨calculateCreditScoreSubscore i.credit_score,
      calculateUtilizationSubscore i.revolving_utilization_pct,
      calculateDTISubscore i.dti_pct,
      inquirySubscore,
      calculateDepthMixSubscore i.oldest_account_years i.open_tradelines,
      calculatePenaltyPoints i.bk_or_major_event i.recent_derogs_24m⟩)).1
  if i.revolving_utilization_pct ≤ 75
      ∨ (i.dti_pct.any (fun d => decide (d ≤ 70)) = true)
      ∨ inquirySubscore ≤ 60 then
    let optimizedTier := max 1 (tier - 1)
    if optimizedTier = 1 then "High ($75K–$200K+)"
    else if optimizedTier = 2 then "Moderate–High ($50K–$125K)"
    else if optimizedTier = 3 then "Moderate ($25K–$75K)"
    else if optimizedTier = 4 then "Low–Moderate ($15K–$50K)"
    else "Moderate"
  else calculateFundingRange tier

/-- A validated input with raw utilization 80 (> 75), raw DTI 80 (> 70) and
inquiry subscore 95 (> 60), whose utilization and DTI subscores are
nevertheless ≤ 75 and ≤ 70. -/
def highUtilDtiInput : FundabilityInput :=
  { sampleInput with revolving_utilization_pct := 80, dti_pct := some 80, inquiries_6m := 0 }

/-- C3 counterexample: on `highUtilDtiInput` the claim's trigger (raw
percents) is false, so the claim predicts the unchanged current range, but
the code's trigger (subscores) fires and returns the bumped-tier entry of
the second table. -/
theorem optimized_range_counterexample :
    ValidInput highUtilDtiInput
    ∧ claimedOptimizedFundingRange highUtilDtiInput = "Low–Moderate ($10K–$50K)"
    ∧ (calculateFundabilitySnapshot highUtilDtiInput "t").funding_range_after_optimization
        = "Moderate–High ($50K–$125K)"
    ∧ claimedOptimizedFundingRange highUtilDtiInput
        ≠ (calculateFundabilitySnapshot highUtilDtiInput "t").funding_range_after_optimization := by
  refine ⟨by decide, ?_, ?_, ?_⟩
  · simp only [claimedOptimizedFundingRange]
    rw [calculateWeightedScore_eq]
    decide
  · simp only [calculateFundabilitySnapshot]
    rw [calculateWeightedScore_eq]
    decide
  · simp only [claimedOptimizedFundingRange, calculateFundabilitySnapshot]
    rw [calculateWeightedScore_eq]
    decide

theorem calculateOptimizedFundingRange_eq (tier u d q : ℤ) :
    calculateOptimizedFundingRange tier u d q =
      (if u ≤ 75 ∨ d ≤ 70 ∨ q ≤ 60 then
        (if max 1 (tier - 1) = 1 then "High ($75K–$200K+)"
          else if max 1 (tier - 1) = 2 then "Moderate–High ($50K–$125K)"
          else if max 1 (tier - 1) = 3 then "Moderate ($25K–$75K)"
          else if max 1 (tier - 1) = 4 then "Low–Moderate ($15K–$50K)"
          else "Moderate")
      else calculateFundingRange tier) := by
  unfold calculateOptimizedFundingRange
  by_cases h : u ≤ 75 ∨ d ≤ 70 ∨ q ≤ 60
  · simp [h]
  · simp [h]

/-- C3 amended: the optimized range bumps the tier by one level (floored
at 1) into the second fixed table when the utilization SUBSCORE is ≤ 75,
or the DTI SUBSCORE is ≤ 70, or the inquiry subscore is ≤ 60; otherwise it
is the same string as the current funding range. -/
theorem optimized_range_amended (i : FundabilityInput) (now : String)
    (_hv : ValidInput i) :
    (calculateFundabilitySnapshot i now).funding_range_after_optimization =
      (if (calculateFundabilitySnapshot i now).subscores.utilization_subscore ≤ 75
          ∨ (calculateFundabilitySnapshot i now).subscores.dti_subscore ≤ 70
          ∨ (calculateFundabilitySnapshot i now).subscores.inquiry_subscore ≤ 60 then
        (if max 1 ((calculateFundabilitySnapshot i now).fundability_tier_numeric - 1) = 1 then "High ($75K–$200K+)"
          else if max 1 ((calculateFundabilitySnapshot i now).fundability_tier_numeric - 1) = 2 then "Moderate–High ($50K–$125K)"
          else if max 1 ((calculateFundabilitySnapshot i now).fundability_tier_numeric - 1) = 3 then "Moderate ($25K–$75K)"
          else if max 1 ((calculateFundabilitySnapshot i now).fundability_tier_numeric - 1) = 4 then "Low–Moderate ($15K–$50K)"
          else "Moderate")
      else (calculateFundabilitySnapshot i now).funding_range_now) :=
  calculateOptimizedFundingRange_eq _ _ _ _

theorem optimized_range_amended_witness :
    ValidInput highUtilDtiInput ∧
      (calculateFundabilitySnapshot highUtilDtiInput "t").funding_range_after_optimization =
        (if (calculateFundabilitySnapshot highUtilDtiInput "t").subscores.utilization_subscore ≤ 75
            ∨ (calculateFundabilitySnapshot highUtilDtiInput "t").subscores.dti_subscore ≤ 70
            ∨ (calculateFundabilitySnapshot highUtilDtiInput "t").subscores.inquiry_subscore ≤ 60 then
          (if max 1 ((calculateFundabilitySnapshot highUtilDtiInput "t").fundability_tier_numeric - 1) = 1 then "High ($75K–$200K+)"
            else if max 1 ((calculateFundabilitySnapshot highUtilDtiInput "t").fundability_tier_numeric - 1) = 2 then "Moderate–High ($50K–$125K)"
            else if max 1 ((calculateFundabilitySnapshot highUtilDtiInput "t").fundability_tier_numeric - 1) = 3 then "Moderate ($25K–$75K)"
            else if max 1 ((calculateFundabilitySnapshot highUtilDtiInput "t").fundability_tier_numeric - 1) = 4 then "Low–Moderate ($15K–$50K)"
            else "Moderate")
        else (calculateFundabilitySnapshot highUtilDtiInput "t").funding_range_now) :=
  ⟨by decide, optimized_range_amended highUtilDtiInput "t" (by decide)⟩

/-- A validated input whose five positive subscores are all at their
maximum 95 with zero penalty and utilization below 50. -/
def optimalInput : FundabilityInput :=
  { sampleInput with
      credit_score := some 750
      revolving_utilization_pct := 5
      dti_pct := some 10
      inquiries_6m := 0 }

/-- C10: the high-impact-actions generator has no fallback sentence: on an
optimal validated input the list is empty, and on every input its length
is at most 5. -/
theorem high_impact_actions_can_be_empty :
    ValidInput optimalInput
    ∧ (calculateFundabilitySnapshot optimalInput "t").high_impact_actions = []
    ∧ (∀ (i : FundabilityInput) (now : String),
        (calculateFundabilitySnapshot i now).high_impact_actions.length ≤ 5) := by
  refine ⟨by decide, ?_, ?_⟩
  · show generateHighImpactActions optimalInput
      ⟨calculateCreditScoreSubscore optimalInput.credit_score,
        calculateUtilizationSubscore optimalInput.revolving_utilization_pct,
        calculateDTISubscore optimalInput.dti_pct,
        calculateInquirySubscore optimalInput.inquiries_6m,
        calculateDepthMixSubscore optimalInput.oldest_account_years optimalInput.open_tradelines,
        calculatePenaltyPoints optimalInput.bk_or_major_event optimalInput.recent_derogs_24m⟩ = []
    norm_num [generateHighImpactActions, optimalInput, sampleInput,
      calculateCreditScoreSubscore, calculateUtilizationSubscore, calculateDTISubscore,
      calculateInquirySubscore, calculateDepthMixSubscore, calculatePenaltyPoints]
  · intro i now
    show (generateHighImpactActions i
      ⟨calculateCreditScoreSubscore i.credit_score,
        calculateUtilizationSubscore i.revolving_utilization_pct,
        calculateDTISubscore i.dti_pct,
        calculateInquirySubscore i.inquiries_6m,
        calculateDepthMixSubscore i.oldest_account_years i.open_tradelines,
        calculatePenaltyPoints i.bk_or_major_event i.recent_derogs_24m⟩).length ≤ 5
    simp only [generateHighImpactActions, List.length_map, List.length_take]
    exact min_le_left _ _

def noGoalBody : RawBody := { validBody with primary_goal := none }

def utilizationMsg : String :=
  "revolving_utilization_pct is required and must be between 0 and 100"

/-- C7: the validator returns either a validated record or the list of one
human-readable message per violated constraint, all collected; a body with
`revolving_utilization_pct = 150` yields an error naming the field and the
0–100 bound, and a body without `primary_goal` yields an error listing the
7 permitted goal values. -/
theorem validator_collects_all_violations :
    (∀ b : RawBody,
      ((validateInput b).valid = true
        ∧ (validateInput b).data = some (buildValidated b)
        ∧ (validateInput b).errors = none
        ∧ (constraintChecks b).filterMap id = [])
      ∨ ((validateInput b).valid = false
        ∧ (validateInput b).data = none
        ∧ (validateInput b).errors = some ((constraintChecks b).filterMap id)
        ∧ (constraintChecks b).filterMap id ≠ []))
    ∧ ((validateInput overUtilizedBody).errors = some [utilizationMsg]
      ∧ strContains utilizationMsg "revolving_utilization_pct" = true
      ∧ strContains utilizationMsg "0" = true
      ∧ strContains utilizationMsg "100" = true)
    ∧ ((validateInput noGoalBody).errors = some [goalMsg]
      ∧ strContains goalMsg "startup_funding" = true
      ∧ strContains goalMsg "business_funding" = true
      ∧ strContains goalMsg "debt_consolidation" = true
      ∧ strContains goalMsg "improve_credit" = true
      ∧ strContains goalMsg "lower_utilization" = true
      ∧ strContains goalMsg "raise_score_fast" = true
      ∧ strContains goalMsg "not_sure" = true) := by
  refine ⟨?_, by decide, by decide⟩
  intro b
  rw [validateInput_eq]
  by_cases h : ((constraintChecks b).filterMap id).length > 0
  · rw [if_pos h]
    refine .inr ⟨rfl, rfl, rfl, ?_⟩
    intro he
    rw [he] at h
    simp at h
  · rw [if_neg h]
    have h0 : ((constraintChecks b).filterMap id).length = 0 := by omega
    exact .inl ⟨rfl, rfl, rfl, List.length_eq_zero.mp h0⟩

/-- C8: `processBatch` never places a record that fails validation into the
failed list: its validation test reads a nonexistent `.length` property of
the `ValidationResult`, so `undefined > 0` is false and the invalid record
is scored and reported as a success. -/
theorem batch_runner_scores_invalid_records :
    (validateInput overUtilizedBody).valid = false
    ∧ (processBatch [overUtilizedBody] "t").failed = []
    ∧ (processBatch [overUtilizedBody] "t").summary.failed = 0
    ∧ (processBatch [overUtilizedBody] "t").summary.successful = 1
    ∧ ((processBatch [overUtilizedBody] "t").success.map (fun r => r.status)) = ["success"] :=
  ⟨by decide, by decide, by decide, by decide, by decide⟩

end Fundability
